import Mathlib

/-!
Verification of the `vm_latest` execution-engine façade
(`core/lib/multivm/src/versions/vm_latest/vm.rs`) of the zksync-era
repository, against its natural-language specification.

The façade orchestrates external collaborators (the low-level interpreter,
the bootloader state, the tracer dispatcher).  Collaborator code is not part
of the verified sources; each missing operation is modelled from the spec
(its doc comment says so) and the genuinely opaque behaviours — how a run of
the interpreter transforms the low-level state, whether unpublished bytecode
remains after execution, how events are merged — are fields of an
`Externals` record that every theorem quantifies over.

Opaque payload types carried by the collaborators are fixed to `Nat`: the
façade never inspects them, and all theorems quantify over the `Externals`
behaviours, so nothing is lost by the concrete choice while every
definition stays executable.
-/

/-- Opaque transaction payload (external `zksync_types::Transaction`). -/
abbrev Transaction := Nat

/-- Opaque tracer dispatcher (external; injected per call, never inspected). -/
abbrev TracerDispatcher := Nat

/-- Opaque L2-block environment (external `L2BlockEnv`). -/
abbrev L2BlockEnv := Nat

/-- Opaque VM-wide configuration (external `SystemEnv`; immutable). -/
abbrev SystemEnv := Nat

/-- Opaque per-batch parameters (external `L1BatchEnv`; immutable). -/
abbrev L1BatchEnv := Nat

/-- Opaque serialized bootloader memory image (external `BootloaderMemory`). -/
abbrev BootloaderMemory := Nat

/-- Opaque per-invocation execution result (external
`VmExecutionResultAndLogs`). -/
abbrev VmExecutionResultAndLogs := Nat

/-- Opaque storage-log-query record. -/
abbrev StorageLogQuery := Nat

/-- Opaque merged VM event. -/
abbrev VmEvent := Nat

/-- Opaque user-originated cross-layer log. -/
abbrev UserLog := Nat

/-- Opaque system-originated cross-layer log. -/
abbrev SystemLog := Nat

/-- Opaque raw cross-layer system message, as produced by the event sink. -/
abbrev L1Message := Nat

/-- Opaque deduplicated event-log entry. -/
abbrev DeduplicatedLog := Nat

/-- Opaque raw chronological event-stream entry. -/
abbrev RawEvent := Nat

/-- Opaque pubdata information held by the bootloader. -/
abbrev PubdataInfo := Nat

/-- Opaque assembled public-data payload. -/
abbrev PubdataPayload := Nat

/-- Opaque shared storage handle (`StoragePtr<S>`). -/
abbrev StorageHandle := Nat

/-- Opaque execution-progress component of the bootloader state: everything
the interpreter run mutates inside the bootloader collaborator (program
counters, accumulated pubdata information). -/
abbrev BootloaderExecComponent := Nat

/-- Opaque remainder of the low-level VM state (memory, oracles) beyond the
observations the façade extracts. -/
abbrev VmStateCore := Nat

/-- Execution-mode enumeration of the spec's state machine: `OneTx` runs
until exactly one queued transaction is processed, `Batch` drains the
bootloader program to its completion marker. -/
inductive VmExecutionMode where
  | OneTx : VmExecutionMode
  | Batch : VmExecutionMode
deriving DecidableEq, Repr

/-- The in-band error of the façade: bytecode compression failed. -/
inductive BytecodeCompressionError where
  | BytecodeCompressionFailed : BytecodeCompressionError
deriving DecidableEq, Repr

/-- Modelled from the spec: the bootloader collaborator "accumulates queued
transactions, L2-block boundaries, and pubdata; the core drives it via
push/start-block/build-pubdata operations".  `txs` is the pending queue with
each transaction's compression flag, `blocks` the recorded L2-block
boundaries, `exec` the opaque execution-progress component mutated by
interpreter runs. -/
structure BootloaderState where
  txs : List (Transaction × Bool)
  blocks : List L2BlockEnv
  exec : BootloaderExecComponent
deriving DecidableEq, Repr

/-- The low-level VM state (`ZkSyncVmState`), external to the façade.  Its
fields record exactly the observations `vm.rs` extracts from it — the event
sink's flattened triple and query count, the precompile processor's
timestamp history, the storage oracle's final log queries and refunds, the
monotonic cycle counter — plus an opaque core for everything else. -/
structure ZkSyncVmState where
  event_sink_deduplicated : List DeduplicatedLog
  event_sink_raw_events : List RawEvent
  event_sink_l1_messages : List L1Message
  event_sink_log_queries : Nat
  precompiles_timestamp_history : List Nat
  storage_final_log_queries : List StorageLogQuery
  monotonic_cycle_counter : Nat
  returned_refunds : List Nat
  core : VmStateCore
deriving DecidableEq, Repr

/-- Modelled from the spec: a checkpoint is "an opaque capture of (VM state,
bootloader state) at a point in time" (`VmSnapshot`; its definition lives
outside the verified sources). -/
structure VmSnapshot where
  vm_state : ZkSyncVmState
  bootloader_state : BootloaderState
deriving DecidableEq, Repr

/-- The engine (`struct Vm` of `vm.rs`): bootloader state, low-level VM
state, the shared storage handle, the two immutable environments, and the
checkpoint stack.  `Vec<VmSnapshot>` pushes and pops at its end; it is
embedded as a list whose head is the top of the stack. -/
structure Vm where
  bootloader_state : BootloaderState
  state : ZkSyncVmState
  storage : StorageHandle
  system_env : SystemEnv
  batch_env : L1BatchEnv
  snapshots : List VmSnapshot
deriving DecidableEq, Repr

/-- End-of-batch aggregate (`CurrentExecutionState`). -/
structure CurrentExecutionState where
  events : List VmEvent
  storage_log_queries : List StorageLogQuery
  used_contract_hashes : List Nat
  user_l2_to_l1_logs : List UserLog
  system_logs : List SystemLog
  total_log_queries : Nat
  cycles_used : Nat
  deduplicated_events_logs : List DeduplicatedLog
  storage_refunds : List Nat
deriving DecidableEq, Repr

/-- Terminal artifact of `finish_batch` (`FinishedL1Batch`). -/
structure FinishedL1Batch where
  block_tip_execution_result : VmExecutionResultAndLogs
  final_execution_state : CurrentExecutionState
  final_bootloader_memory : Option BootloaderMemory
  pubdata_input : Option PubdataPayload
deriving DecidableEq, Repr

/-- The behaviours of the external collaborators that `vm.rs` calls but that
are defined outside the verified sources.  Every theorem quantifies over
this record, so the results hold for every possible collaborator
behaviour. -/
structure Externals where
  /-- Effect of one run of the execution-mode state machine
  (`inspect_inner`): transforms the low-level VM state and the bootloader's
  execution-progress component and yields the invocation result. -/
  inspect_inner_run : ZkSyncVmState → BootloaderExecComponent →
    TracerDispatcher → VmExecutionMode →
    ZkSyncVmState × BootloaderExecComponent × VmExecutionResultAndLogs
  /-- Whether, after execution, bytecode scheduled for publication by the
  last transaction remains unpublished. -/
  unpublished_remain : ZkSyncVmState → BootloaderExecComponent → Bool
  /-- Serialization of the accumulated bootloader program memory from the
  queued transactions and block boundaries (`bootloader_memory()`). -/
  memory_image : List (Transaction × Bool) → List L2BlockEnv →
    BootloaderMemory
  /-- The bootloader's accumulated pubdata information
  (`get_pubdata_information()`). -/
  pubdata_information : BootloaderExecComponent → PubdataInfo
  /-- Pubdata assembly (`build_pubdata(is_final)`). -/
  build_pubdata : PubdataInfo → Bool → PubdataPayload
  /-- The merge pass over the raw event stream followed by materialization
  against the batch number (`merge_events` and `into_vm_event`). -/
  merge_events_for_batch : List RawEvent → L1BatchEnv → List VmEvent
  /-- Cross-layer extraction: scan merged events for emissions from the
  system messenger (`extract_l2tol1logs_from_l1_messenger`). -/
  extract_user_logs : List VmEvent → List UserLog
  /-- Wrapping of one raw system message into a system-level cross-layer
  log (`SystemL2ToL1Log(log.into())`). -/
  wrap_system_log : L1Message → SystemLog
  /-- Hashes of the contracts used during execution
  (`get_used_contracts`). -/
  used_contracts : ZkSyncVmState → List Nat
  /-- The default tracer dispatcher used by the trait-provided `execute`. -/
  default_tracer : TracerDispatcher

/-- Modelled from the spec: `pushTransactionWithCompression(tx,
compressionEnabled)` "enqueues with explicit compression policy"; a
transaction "becomes effective only once pushed into the bootloader's
pending queue; execution order is the push order".  (The method body lives
outside the verified sources.) -/
def push_transaction_with_compression (v : Vm) (tx : Transaction)
    (with_compression : Bool) : Vm :=
  { v with bootloader_state :=
      { v.bootloader_state with
          txs := v.bootloader_state.txs ++ [(tx, with_compression)] } }

/-- `push_transaction` (vm.rs:56-58): push with compression enabled. -/
def push_transaction (v : Vm) (tx : Transaction) : Vm :=
  push_transaction_with_compression v tx true

/-- Specification-side definition for the refinement claim about
`pushTransaction`: per the spec it "enqueues a transaction with bytecode
compression enabled by default", i.e. appends the transaction to the
bootloader's pending queue flagged as compressed. -/
def spec_pushTransaction (v : Vm) (tx : Transaction) : Vm :=
  { v with bootloader_state :=
      { v.bootloader_state with
          txs := v.bootloader_state.txs ++ [(tx, true)] } }

/-- Modelled from the spec: `inspect_inner` runs the execution-mode state
machine to completion for the given mode (the run's effect on the low-level
state and on the bootloader's execution progress is the opaque collaborator
behaviour `E.inspect_inner_run`); the queued transactions, block boundaries,
checkpoint stack, environments and storage handle are not part of the run's
mutable footprint. -/
def inspect_inner (E : Externals) (v : Vm) (tracer : TracerDispatcher)
    (mode : VmExecutionMode) : Vm × VmExecutionResultAndLogs :=
  let r := E.inspect_inner_run v.state v.bootloader_state.exec tracer mode
  ({ v with
      state := r.1,
      bootloader_state := { v.bootloader_state with exec := r.2.1 } },
    r.2.2)

/-- `inspect` (vm.rs:61-67): execute with custom tracers. -/
def inspect (E : Externals) (v : Vm) (tracer : TracerDispatcher)
    (mode : VmExecutionMode) : Vm × VmExecutionResultAndLogs :=
  inspect_inner E v tracer mode

/-- Modelled from the spec: the bootloader's `memoryImage()` serializes the
current program memory accumulated from the queued transactions and block
boundaries. -/
def bootloader_memory (E : Externals) (b : BootloaderState) :
    BootloaderMemory :=
  E.memory_image b.txs b.blocks

/-- `get_bootloader_memory` (vm.rs:70-72). -/
def get_bootloader_memory (E : Externals) (v : Vm) : BootloaderMemory :=
  bootloader_memory E v.bootloader_state

/-- `start_new_l2_block` (vm.rs:79-81); the bootloader-side effect is
modelled from the spec: "records an L2-block boundary in the bootloader
queue". -/
def start_new_l2_block (v : Vm) (blk : L2BlockEnv) : Vm :=
  { v with bootloader_state :=
      { v.bootloader_state with
          blocks := v.bootloader_state.blocks ++ [blk] } }

/-- Compression flag of the most recently pushed transaction. -/
def last_tx_compression_requested (b : BootloaderState) : Bool :=
  match b.txs.getLast? with
  | some p => p.2
  | none => false

/-- Modelled from the spec: `has_unpublished_bytecodes` holds when
"compression was requested for a transaction and, after execution,
unpublished bytecode remains" (spec §7; the method body lives outside the
verified sources). -/
def has_unpublished_bytecodes (E : Externals) (v : Vm) : Bool :=
  last_tx_compression_requested v.bootloader_state &&
    E.unpublished_remain v.state v.bootloader_state.exec

/-- `inspect_transaction_with_bytecode_compression` (vm.rs:125-138): push
the transaction with the given compression policy, run OneTx mode, then
fail with `BytecodeCompressionFailed` when unpublished bytecodes remain. -/
def inspect_transaction_with_bytecode_compression (E : Externals) (v : Vm)
    (tracer : TracerDispatcher) (tx : Transaction)
    (with_compression : Bool) :
    Vm × Except BytecodeCompressionError VmExecutionResultAndLogs :=
  let v1 := push_transaction_with_compression v tx with_compression
  let p := inspect_inner E v1 tracer VmExecutionMode.OneTx
  if has_unpublished_bytecodes E p.1 then
    (p.1, Except.error BytecodeCompressionError.BytecodeCompressionFailed)
  else
    (p.1, Except.ok p.2)

/-- `get_current_execution_state` (vm.rs:86-120): flatten the event sink,
merge the raw events, extract cross-layer logs, and assemble the aggregate
(the method takes `&self`, so it yields only the aggregate). -/
def get_current_execution_state (E : Externals) (v : Vm) :
    CurrentExecutionState :=
  let deduplicated_events_logs := v.state.event_sink_deduplicated
  let raw_events := v.state.event_sink_raw_events
  let l1_messages := v.state.event_sink_l1_messages
  let events := E.merge_events_for_batch raw_events v.batch_env
  let user_l2_to_l1_logs := E.extract_user_logs events
  let system_logs := l1_messages.map E.wrap_system_log
  let total_log_queries := v.state.event_sink_log_queries
    + v.state.precompiles_timestamp_history.length
    + v.state.storage_final_log_queries.length
  { events := events,
    storage_log_queries := v.state.storage_final_log_queries,
    used_contract_hashes := E.used_contracts v.state,
    user_l2_to_l1_logs := user_l2_to_l1_logs,
    system_logs := system_logs,
    total_log_queries := total_log_queries,
    cycles_used := v.state.monotonic_cycle_counter,
    deduplicated_events_logs := deduplicated_events_logs,
    storage_refunds := v.state.returned_refunds }

/-- The `get_current_execution_state` call at the engine level: the method
takes `&self` (a shared borrow with no interior mutability in the façade),
so the engine after the call is the engine before it. -/
def get_current_execution_state_call (E : Externals) (v : Vm) :
    Vm × CurrentExecutionState :=
  (v, get_current_execution_state E v)

/-- Modelled from the spec: the trait-provided `execute` runs `inspect`
with the default tracer dispatcher for the given mode. -/
def execute (E : Externals) (v : Vm) (mode : VmExecutionMode) :
    Vm × VmExecutionResultAndLogs :=
  inspect E v E.default_tracer mode

/-- `finish_batch` (vm.rs:144-159): run Batch mode, then extract the
execution state, capture the bootloader memory, and build the non-final
pubdata payload. -/
def finish_batch (E : Externals) (v : Vm) : Vm × FinishedL1Batch :=
  let p := execute E v VmExecutionMode.Batch
  let execution_state := get_current_execution_state E p.1
  let memory := get_bootloader_memory E p.1
  (p.1,
    { block_tip_execution_result := p.2,
      final_execution_state := execution_state,
      final_bootloader_memory := some memory,
      pubdata_input := some (E.build_pubdata
        (E.pubdata_information p.1.bootloader_state.exec) false) })

/-- Modelled from the spec: `makeCheckpoint()` "captures current VM-state
and bootloader-state deltas, pushes onto the stack" (`make_snapshot_inner`
lives outside the verified sources). -/
def make_snapshot_inner (v : Vm) : Vm :=
  { v with snapshots :=
      { vm_state := v.state, bootloader_state := v.bootloader_state }
        :: v.snapshots }

/-- `make_snapshot` (vm.rs:165-167). -/
def make_snapshot (v : Vm) : Vm :=
  make_snapshot_inner v

/-- Modelled from the spec: `rollback_to_snapshot` "restores VM state and
bootloader state to that captured point" (the method body lives outside the
verified sources). -/
def rollback_to_snapshot (v : Vm) (s : VmSnapshot) : Vm :=
  { v with state := s.vm_state, bootloader_state := s.bootloader_state }

/-- `rollback_to_the_latest_snapshot` (vm.rs:170-176): pop the latest
snapshot and restore to it; the `.expect` panic on an empty stack is
embedded as `none`. -/
def rollback_to_the_latest_snapshot (v : Vm) : Option Vm :=
  match v.snapshots with
  | [] => none
  | s :: rest => some (rollback_to_snapshot { v with snapshots := rest } s)

/-- `pop_snapshot_no_rollback` (vm.rs:179-183): pop the latest snapshot
without restoring; the `.expect` panic on an empty stack is embedded as
`none`. -/
def pop_snapshot_no_rollback (v : Vm) : Option Vm :=
  match v.snapshots with
  | [] => none
  | _ :: rest => some { v with snapshots := rest }

/-- The engine's public operations, for stating properties about arbitrary
call sequences. -/
inductive Op where
  | pushTx : Transaction → Op
  | pushTxWithCompression : Transaction → Bool → Op
  | inspectVm : TracerDispatcher → VmExecutionMode → Op
  | inspectTxWithCompression : TracerDispatcher → Transaction → Bool → Op
  | startBlock : L2BlockEnv → Op
  | finishBatchOp : Op
  | makeSnapshotOp : Op
  | rollbackOp : Op
  | popSnapshotOp : Op
deriving DecidableEq, Repr

/-- Whether an operation is a state mutation, as opposed to an operation on
the checkpoint stack itself. -/
def Op.isMutation : Op → Bool
  | Op.makeSnapshotOp => false
  | Op.rollbackOp => false
  | Op.popSnapshotOp => false
  | _ => true

/-- One engine step; `none` embeds a fatal panic. -/
def stepOp (E : Externals) (v : Vm) : Op → Option Vm
  | Op.pushTx tx => some (push_transaction v tx)
  | Op.pushTxWithCompression tx c =>
      some (push_transaction_with_compression v tx c)
  | Op.inspectVm tr m => some (inspect E v tr m).1
  | Op.inspectTxWithCompression tr tx c =>
      some (inspect_transaction_with_bytecode_compression E v tr tx c).1
  | Op.startBlock blk => some (start_new_l2_block v blk)
  | Op.finishBatchOp => some (finish_batch E v).1
  | Op.makeSnapshotOp => some (make_snapshot v)
  | Op.rollbackOp => rollback_to_the_latest_snapshot v
  | Op.popSnapshotOp => pop_snapshot_no_rollback v

/-- Run a sequence of engine operations. -/
def runOps (E : Externals) (v : Vm) : List Op → Option Vm
  | [] => some v
  | op :: ops => (stepOp E v op).bind (fun w => runOps E w ops)

/-! ### Basic frame lemmas for the engine operations -/

/-- Pushing a transaction does not touch the checkpoint stack. -/
@[simp] theorem push_transaction_with_compression_snapshots (v : Vm)
    (tx : Transaction) (c : Bool) :
    (push_transaction_with_compression v tx c).snapshots = v.snapshots :=
  rfl

/-- Pushing a transaction leaves the low-level VM state unchanged. -/
@[simp] theorem push_transaction_with_compression_state (v : Vm)
    (tx : Transaction) (c : Bool) :
    (push_transaction_with_compression v tx c).state = v.state :=
  rfl

@[simp] theorem push_transaction_snapshots (v : Vm) (tx : Transaction) :
    (push_transaction v tx).snapshots = v.snapshots :=
  rfl

/-- An interpreter run does not touch the checkpoint stack. -/
@[simp] theorem inspect_inner_fst_snapshots (E : Externals) (v : Vm)
    (tr : TracerDispatcher) (m : VmExecutionMode) :
    (inspect_inner E v tr m).1.snapshots = v.snapshots :=
  rfl

/-- An interpreter run does not touch the queued transactions. -/
@[simp] theorem inspect_inner_fst_txs (E : Externals) (v : Vm)
    (tr : TracerDispatcher) (m : VmExecutionMode) :
    (inspect_inner E v tr m).1.bootloader_state.txs
      = v.bootloader_state.txs :=
  rfl

/-- An interpreter run does not touch the recorded block boundaries. -/
@[simp] theorem inspect_inner_fst_blocks (E : Externals) (v : Vm)
    (tr : TracerDispatcher) (m : VmExecutionMode) :
    (inspect_inner E v tr m).1.bootloader_state.blocks
      = v.bootloader_state.blocks :=
  rfl

@[simp] theorem inspect_fst_snapshots (E : Externals) (v : Vm)
    (tr : TracerDispatcher) (m : VmExecutionMode) :
    (inspect E v tr m).1.snapshots = v.snapshots :=
  rfl

@[simp] theorem start_new_l2_block_snapshots (v : Vm) (blk : L2BlockEnv) :
    (start_new_l2_block v blk).snapshots = v.snapshots :=
  rfl

@[simp] theorem finish_batch_fst_snapshots (E : Externals) (v : Vm) :
    (finish_batch E v).1.snapshots = v.snapshots :=
  rfl

@[simp] theorem make_snapshot_snapshots (v : Vm) :
    (make_snapshot v).snapshots
      = { vm_state := v.state, bootloader_state := v.bootloader_state }
          :: v.snapshots :=
  rfl

/-- The engine returned by `inspect_transaction_with_bytecode_compression`
is, in both the error and the success branch, the engine after pushing the
transaction and running OneTx mode. -/
@[simp] theorem inspect_tx_compression_fst (E : Externals) (v : Vm)
    (tr : TracerDispatcher) (tx : Transaction) (c : Bool) :
    (inspect_transaction_with_bytecode_compression E v tr tx c).1
      = (inspect_inner E (push_transaction_with_compression v tx c) tr
          VmExecutionMode.OneTx).1 := by
  simp only [inspect_transaction_with_bytecode_compression]
  split <;> rfl

/-- A mutation step never touches the checkpoint stack. -/
theorem stepOp_isMutation_snapshots (E : Externals) (v w : Vm) (op : Op)
    (hm : op.isMutation = true) (h : stepOp E v op = some w) :
    w.snapshots = v.snapshots := by
  cases op with
  | pushTx tx =>
      simp only [stepOp, Option.some.injEq] at h
      subst h; simp
  | pushTxWithCompression tx c =>
      simp only [stepOp, Option.some.injEq] at h
      subst h; simp
  | inspectVm tr m =>
      simp only [stepOp, Option.some.injEq] at h
      subst h; simp
  | inspectTxWithCompression tr tx c =>
      simp only [stepOp, Option.some.injEq] at h
      subst h; simp
  | startBlock blk =>
      simp only [stepOp, Option.some.injEq] at h
      subst h; simp
  | finishBatchOp =>
      simp only [stepOp, Option.some.injEq] at h
      subst h; simp
  | makeSnapshotOp => simp [Op.isMutation] at hm
  | rollbackOp => simp [Op.isMutation] at hm
  | popSnapshotOp => simp [Op.isMutation] at hm

/-- A run of mutation steps never touches the checkpoint stack. -/
theorem runOps_isMutation_snapshots (E : Externals) (M : List Op) :
    ∀ v w : Vm, (∀ op ∈ M, op.isMutation = true) →
      runOps E v M = some w → w.snapshots = v.snapshots := by
  induction M with
  | nil =>
      intro v w _ h
      simp only [runOps, Option.some.injEq] at h
      subst h; rfl
  | cons op ops ih =>
      intro v w hall h
      simp only [runOps] at h
      cases hs : stepOp E v op with
      | none => rw [hs] at h; simp at h
      | some u =>
          rw [hs] at h
          simp only [Option.some_bind] at h
          have h1 := stepOp_isMutation_snapshots E v u op
            (hall op (by simp)) hs
          have h2 := ih u w (fun o ho => hall o (by simp [ho])) h
          rw [h2, h1]

/-- After pushing a transaction and running the state machine, the
compression flag that `has_unpublished_bytecodes` consults is the pushed
transaction's flag. -/
theorem has_unpublished_after_push (E : Externals) (v : Vm)
    (tr : TracerDispatcher) (tx : Transaction) (wc : Bool)
    (m : VmExecutionMode) :
    has_unpublished_bytecodes E
        (inspect_inner E (push_transaction_with_compression v tx wc) tr m).1
      = (wc && E.unpublished_remain
          (inspect_inner E (push_transaction_with_compression v tx wc) tr
            m).1.state
          (inspect_inner E (push_transaction_with_compression v tx wc) tr
            m).1.bootloader_state.exec) := by
  simp [has_unpublished_bytecodes, last_tx_compression_requested,
    inspect_inner, push_transaction_with_compression, List.getLast?_concat]

/-! ### Concrete collaborator instance and engine state, used by the
closed-form witnesses -/

/-- A concrete collaborator instance: the interpreter bumps the execution
component and reports result 5, and unpublished bytecode always remains. -/
def sampleExternals : Externals where
  inspect_inner_run := fun s b _ _ => (s, b + 1, 5)
  unpublished_remain := fun _ _ => true
  memory_image := fun txs blocks => txs.length + blocks.length
  pubdata_information := fun b => b
  build_pubdata := fun i f => if f then i else i + 1
  merge_events_for_batch := fun raw _ => raw
  extract_user_logs := fun evs => evs
  wrap_system_log := fun m => m
  used_contracts := fun _ => []
  default_tracer := 0

/-- A concrete low-level VM state. -/
def sampleState : ZkSyncVmState where
  event_sink_deduplicated := [1]
  event_sink_raw_events := [2]
  event_sink_l1_messages := [3]
  event_sink_log_queries := 4
  precompiles_timestamp_history := [5, 6]
  storage_final_log_queries := [7]
  monotonic_cycle_counter := 8
  returned_refunds := [9]
  core := 10

/-- A concrete engine state with an empty checkpoint stack. -/
def sampleVm : Vm where
  bootloader_state := { txs := [(1, true)], blocks := [2], exec := 3 }
  state := sampleState
  storage := 0
  system_env := 1
  batch_env := 2
  snapshots := []

/-! ### The claims -/

/-- C1: `inspect_transaction_with_bytecode_compression` returns
`BytecodeCompressionFailed` if and only if compression was requested for
the transaction and, after pushing it and running the execution-mode state
machine in OneTx mode, unpublished bytecodes remain; otherwise it returns
`Ok` carrying the OneTx execution result. -/
theorem inspect_tx_compression_error_characterization (E : Externals)
    (v : Vm) (tr : TracerDispatcher) (tx : Transaction) (wc : Bool) :
    ((inspect_transaction_with_bytecode_compression E v tr tx wc).2
        = Except.error BytecodeCompressionError.BytecodeCompressionFailed
      ↔ wc = true ∧
          E.unpublished_remain
              (inspect_inner E (push_transaction_with_compression v tx wc)
                tr VmExecutionMode.OneTx).1.state
              (inspect_inner E (push_transaction_with_compression v tx wc)
                tr VmExecutionMode.OneTx).1.bootloader_state.exec = true)
    ∧ ((inspect_transaction_with_bytecode_compression E v tr tx wc).2
        = Except.ok
            (inspect_inner E (push_transaction_with_compression v tx wc) tr
              VmExecutionMode.OneTx).2
      ↔ ¬(wc = true ∧
          E.unpublished_remain
              (inspect_inner E (push_transaction_with_compression v tx wc)
                tr VmExecutionMode.OneTx).1.state
              (inspect_inner E (push_transaction_with_compression v tx wc)
                tr VmExecutionMode.OneTx).1.bootloader_state.exec
            = true)) := by
  have h := has_unpublished_after_push E v tr tx wc VmExecutionMode.OneTx
  simp only [inspect_transaction_with_bytecode_compression]
  rw [h]
  generalize inspect_inner E (push_transaction_with_compression v tx wc) tr
    VmExecutionMode.OneTx = p
  generalize E.unpublished_remain p.1.state p.1.bootloader_state.exec = u
  cases wc <;> cases u <;> simp

/-- C2: when `inspect_transaction_with_bytecode_compression` returns
`BytecodeCompressionFailed`, the execution side effects are already applied
and not undone: the engine after the erroring call equals the engine
obtained by pushing the transaction and running OneTx mode, with no
rollback performed inside the call. -/
theorem inspect_tx_compression_error_state (E : Externals) (v : Vm)
    (tr : TracerDispatcher) (tx : Transaction) (wc : Bool)
    (herr : (inspect_transaction_with_bytecode_compression E v tr tx wc).2
      = Except.error BytecodeCompressionError.BytecodeCompressionFailed) :
    (inspect_transaction_with_bytecode_compression E v tr tx wc).1
      = (inspect_inner E (push_transaction_with_compression v tx wc) tr
          VmExecutionMode.OneTx).1 :=
  inspect_tx_compression_fst E v tr tx wc

/-- Witness for C2 at the sample collaborators (where unpublished bytecode
always remains), a sample engine, tracer 0, transaction 7, compression
requested: the call errors and the resulting engine is the push-then-OneTx
engine. -/
theorem inspect_tx_compression_error_state_witness :
    (inspect_transaction_with_bytecode_compression sampleExternals sampleVm
        0 7 true).1
      = (inspect_inner sampleExternals
          (push_transaction_with_compression sampleVm 7 true) 0
          VmExecutionMode.OneTx).1 :=
  inspect_tx_compression_error_state sampleExternals sampleVm 0 7 true rfl

/-- C3: for every mutation sequence `M` executed after `make_snapshot`,
`rollback_to_the_latest_snapshot` pops the top checkpoint and restores the
VM state and the bootloader state to exactly the state captured at that
checkpoint, independent of the content of `M`, and the restored checkpoint
is discarded from the stack. -/
theorem rollback_restores_checkpoint (E : Externals) (v vM : Vm)
    (M : List Op) (hM : ∀ op ∈ M, op.isMutation = true)
    (hrun : runOps E (make_snapshot v) M = some vM) :
    (rollback_to_the_latest_snapshot vM).map Vm.state = some v.state
    ∧ (rollback_to_the_latest_snapshot vM).map Vm.bootloader_state
        = some v.bootloader_state
    ∧ (rollback_to_the_latest_snapshot vM).map Vm.snapshots
        = some v.snapshots := by
  have hs : vM.snapshots
      = { vm_state := v.state, bootloader_state := v.bootloader_state }
          :: v.snapshots := by
    rw [runOps_isMutation_snapshots E M (make_snapshot v) vM hM hrun]
    simp
  simp [rollback_to_the_latest_snapshot, rollback_to_snapshot, hs]

/-- Witness for C3 at the sample collaborators and engine, with the
mutation sequence consisting of one pushed transaction. -/
theorem rollback_restores_checkpoint_witness :
    (rollback_to_the_latest_snapshot
          (push_transaction (make_snapshot sampleVm) 7)).map Vm.state
        = some sampleVm.state
    ∧ (rollback_to_the_latest_snapshot
          (push_transaction (make_snapshot sampleVm) 7)).map
            Vm.bootloader_state
        = some sampleVm.bootloader_state
    ∧ (rollback_to_the_latest_snapshot
          (push_transaction (make_snapshot sampleVm) 7)).map Vm.snapshots
        = some sampleVm.snapshots :=
  rollback_restores_checkpoint sampleExternals sampleVm
    (push_transaction (make_snapshot sampleVm) 7) [Op.pushTx 7]
    (by decide) rfl

/-- C4: checkpoint resolution is strict LIFO.  After `make_snapshot` (c1),
a mutation run `M1`, `make_snapshot` (c2) and a mutation run `M2`, the
first `rollback_to_the_latest_snapshot` restores the state captured at c2,
a second call restores the state captured at c1, and a third call, on the
now-empty stack, fails fatally. -/
theorem checkpoint_lifo_discipline (E : Externals) (v w2 w4 : Vm)
    (M1 M2 : List Op) (hempty : v.snapshots = [])
    (hM1 : ∀ op ∈ M1, op.isMutation = true)
    (hM2 : ∀ op ∈ M2, op.isMutation = true)
    (hr1 : runOps E (make_snapshot v) M1 = some w2)
    (hr2 : runOps E (make_snapshot w2) M2 = some w4) :
    (rollback_to_the_latest_snapshot w4).map Vm.state = some w2.state
    ∧ (rollback_to_the_latest_snapshot w4).map Vm.bootloader_state
        = some w2.bootloader_state
    ∧ ((rollback_to_the_latest_snapshot w4).bind
          rollback_to_the_latest_snapshot).map Vm.state = some v.state
    ∧ ((rollback_to_the_latest_snapshot w4).bind
          rollback_to_the_latest_snapshot).map Vm.bootloader_state
        = some v.bootloader_state
    ∧ (((rollback_to_the_latest_snapshot w4).bind
          rollback_to_the_latest_snapshot).bind
            rollback_to_the_latest_snapshot) = none := by
  have hs2 : w2.snapshots
      = { vm_state := v.state, bootloader_state := v.bootloader_state }
          :: v.snapshots := by
    rw [runOps_isMutation_snapshots E M1 (make_snapshot v) w2 hM1 hr1]
    simp
  have hs4 : w4.snapshots
      = { vm_state := w2.state, bootloader_state := w2.bootloader_state }
          :: ({ vm_state := v.state,
                bootloader_state := v.bootloader_state } : VmSnapshot)
          :: [] := by
    rw [runOps_isMutation_snapshots E M2 (make_snapshot w2) w4 hM2 hr2]
    simp [hs2, hempty]
  simp [rollback_to_the_latest_snapshot, rollback_to_snapshot, hs4]

/-- Witness for C4 at the sample collaborators and engine (whose checkpoint
stack is empty), with one pushed transaction between the checkpoints and
one after the second checkpoint. -/
theorem checkpoint_lifo_discipline_witness :
    (rollback_to_the_latest_snapshot
          (push_transaction (make_snapshot
            (push_transaction (make_snapshot sampleVm) 7)) 8)).map Vm.state
        = some (push_transaction (make_snapshot sampleVm) 7).state
    ∧ (rollback_to_the_latest_snapshot
          (push_transaction (make_snapshot
            (push_transaction (make_snapshot sampleVm) 7)) 8)).map
            Vm.bootloader_state
        = some (push_transaction (make_snapshot sampleVm) 7).bootloader_state
    ∧ ((rollback_to_the_latest_snapshot
          (push_transaction (make_snapshot
            (push_transaction (make_snapshot sampleVm) 7)) 8)).bind
            rollback_to_the_latest_snapshot).map Vm.state
        = some sampleVm.state
    ∧ ((rollback_to_the_latest_snapshot
          (push_transaction (make_snapshot
            (push_transaction (make_snapshot sampleVm) 7)) 8)).bind
            rollback_to_the_latest_snapshot).map Vm.bootloader_state
        = some sampleVm.bootloader_state
    ∧ (((rollback_to_the_latest_snapshot
          (push_transaction (make_snapshot
            (push_transaction (make_snapshot sampleVm) 7)) 8)).bind
            rollback_to_the_latest_snapshot).bind
              rollback_to_the_latest_snapshot) = none :=
  checkpoint_lifo_discipline sampleExternals sampleVm
    (push_transaction (make_snapshot sampleVm) 7)
    (push_transaction (make_snapshot
      (push_transaction (make_snapshot sampleVm) 7)) 8)
    [Op.pushTx 7] [Op.pushTx 8] rfl (by decide) (by decide) rfl rfl

/-- C5: in the `FinishedL1Batch` returned by `finish_batch`,
`final_bootloader_memory` equals the value `get_bootloader_memory` would
have returned immediately before the `finish_batch` call. -/
theorem finish_batch_final_bootloader_memory (E : Externals) (v : Vm) :
    (finish_batch E v).2.final_bootloader_memory
      = some (get_bootloader_memory E v) :=
  rfl

/-- C6: `finish_batch` first runs the execution-mode state machine in Batch
mode, and only then extracts the current execution state, captures the
bootloader memory image and builds the pubdata payload with the `isFinal`
flag set to `false`, all from the post-run engine; the returned
`FinishedL1Batch` bundles exactly these components. -/
theorem finish_batch_structure (E : Externals) (v : Vm) :
    (finish_batch E v).1 = (execute E v VmExecutionMode.Batch).1
    ∧ (finish_batch E v).2.block_tip_execution_result
        = (execute E v VmExecutionMode.Batch).2
    ∧ (finish_batch E v).2.final_execution_state
        = get_current_execution_state E
            (execute E v VmExecutionMode.Batch).1
    ∧ (finish_batch E v).2.final_bootloader_memory
        = some (get_bootloader_memory E
            (execute E v VmExecutionMode.Batch).1)
    ∧ (finish_batch E v).2.pubdata_input
        = some (E.build_pubdata
            (E.pubdata_information
              (execute E v VmExecutionMode.Batch).1.bootloader_state.exec)
            false) :=
  ⟨rfl, rfl, rfl, rfl, rfl⟩

/-- C7: the `total_log_queries` field of the aggregate returned by
`get_current_execution_state` equals exactly the sum of the event-sink
log-query count, the length of the precompile processor's timestamp
history, and the number of final storage log queries. -/
theorem total_log_queries_formula (E : Externals) (v : Vm) :
    (get_current_execution_state E v).total_log_queries
      = v.state.event_sink_log_queries
        + v.state.precompiles_timestamp_history.length
        + v.state.storage_final_log_queries.length :=
  rfl

/-- C8: `pop_snapshot_no_rollback` pops the top checkpoint without
restoring: `make_snapshot` immediately followed by it leaves the engine
bit-identical to before the checkpoint; on any engine it leaves every field
other than the checkpoint stack unchanged and removes the top checkpoint;
and it fails fatally on an empty checkpoint stack. -/
theorem pop_snapshot_no_rollback_spec (v : Vm) :
    pop_snapshot_no_rollback (make_snapshot v) = some v
    ∧ (v.snapshots = [] → pop_snapshot_no_rollback v = none)
    ∧ (∀ w : Vm, pop_snapshot_no_rollback v = some w →
        w.state = v.state ∧ w.bootloader_state = v.bootloader_state
        ∧ w.storage = v.storage ∧ w.system_env = v.system_env
        ∧ w.batch_env = v.batch_env
        ∧ w.snapshots = v.snapshots.tail) := by
  refine ⟨by cases v; rfl, ?_, ?_⟩
  · intro h
    simp [pop_snapshot_no_rollback, h]
  · intro w hw
    cases hsn : v.snapshots with
    | nil => simp [pop_snapshot_no_rollback, hsn] at hw
    | cons s rest =>
        simp only [pop_snapshot_no_rollback, hsn, Option.some.injEq] at hw
        subst hw
        simp [hsn]

/-- C9: `push_transaction tx` is exactly `push_transaction_with_compression
tx true`, and both agree with the specification-side enqueue that flags the
transaction as compressed. -/
theorem push_transaction_default_compression (v : Vm) (tx : Transaction) :
    push_transaction v tx = push_transaction_with_compression v tx true
    ∧ push_transaction v tx = spec_pushTransaction v tx :=
  ⟨rfl, rfl⟩

/-- C10: `get_current_execution_state` never mutates the engine: the method
takes a shared borrow, so at the engine level every field is unchanged by
the call, and two consecutive calls with no intervening operation return
equal aggregates. -/
theorem get_current_execution_state_pure (E : Externals) (v : Vm) :
    (get_current_execution_state_call E v).1.state = v.state
    ∧ (get_current_execution_state_call E v).1.bootloader_state
        = v.bootloader_state
    ∧ (get_current_execution_state_call E v).1.snapshots = v.snapshots
    ∧ (get_current_execution_state_call E v).1.system_env = v.system_env
    ∧ (get_current_execution_state_call E v).1.batch_env = v.batch_env
    ∧ (get_current_execution_state_call E v).1.storage = v.storage
    ∧ (get_current_execution_state_call E
          (get_current_execution_state_call E v).1).2
        = (get_current_execution_state_call E v).2 :=
  ⟨rfl, rfl, rfl, rfl, rfl, rfl, rfl⟩
